import Mathlib

/-!
Shallow embedding of the DiveBuddy backend: the event persistence gateway
(`EventModel` in event.model.ts), the async error wrapper
(asyncHandler.util.ts), and — where the controller / schema / user-model
sources are not among the provided files — definitions modelled from the
specification (each such definition carries a doc comment saying so).

The document store is a list of records; a boolean `storeFail` flag models
the underlying store operation failing.  Stateful gateway calls return the
result together with the store after the call, so "no write happened" is the
post-store being equal to the pre-store.  Dates and coordinates are modelled
as integers; no claim depends on their arithmetic.
-/

/-- Modelled from the spec: the SKILL_LEVELS enumeration (constants/statics is
not among the provided files); values observed throughout the tests. -/
def SKILL_LEVELS : List String := ["Beginner", "Intermediate", "Expert"]

/-- An event document, following the mongoose eventSchema in event.model.ts:
title, description, date, capacity, optional skillLevel / location /
coordinates / photo, creator reference and attendee list. -/
structure Event where
  id : Nat
  title : String
  description : String
  date : Int
  capacity : Int
  skillLevel : Option String := none
  location : Option String := none
  latitude : Option Int := none
  longitude : Option Int := none
  createdBy : Nat
  attendees : List Nat
  photo : Option String := none
  deriving Repr, DecidableEq

/-- The domain error kinds of §7, each carrying its fixed message. -/
inductive DomainError where
  | validationError (msg : String)
  | notFound (msg : String)
  | conflict (msg : String)
  | persistenceError (msg : String)
  deriving Repr, DecidableEq

/-- Modelled from the spec: the error-translation middleware (§7) maps
ValidationError and Conflict to 400, NotFound to 404, PersistenceError
to 500 (the middleware source is not among the provided files). -/
def DomainError.status : DomainError → Nat
  | .validationError _ => 400
  | .notFound _ => 404
  | .conflict _ => 400
  | .persistenceError _ => 500

/-- The message carried by a domain error. -/
def DomainError.msg : DomainError → String
  | .validationError m => m
  | .notFound m => m
  | .conflict m => m
  | .persistenceError m => m

/-- A create-event payload (shape of CreateEventRequest as used by the tests). -/
structure EventCreate where
  title : String
  description : String
  date : Int
  capacity : Int
  skillLevel : Option String := none
  location : Option String := none
  latitude : Option Int := none
  longitude : Option Int := none
  createdBy : Nat
  attendees : List Nat := []
  photo : Option String := none
  deriving Repr, DecidableEq

/-- A partial update payload: every field optional. -/
structure EventUpdate where
  title : Option String := none
  description : Option String := none
  date : Option Int := none
  capacity : Option Int := none
  skillLevel : Option String := none
  location : Option String := none
  latitude : Option Int := none
  longitude : Option Int := none
  attendees : Option (List Nat) := none
  photo : Option String := none
  deriving Repr, DecidableEq

/-- Title rule: between 1 and 100 characters (mongoose eventSchema bounds). -/
def validTitle (t : String) : Bool :=
  decide (1 ≤ t.length) && decide (t.length ≤ 100)

/-- Description rule: non-empty (mongoose eventSchema minlength 1). -/
def validDescription (d : String) : Bool :=
  decide (1 ≤ d.length)

/-- Capacity rule: at least 1 (mongoose eventSchema min 1). -/
def validCapacity (c : Int) : Bool :=
  decide (1 ≤ c)

/-- Skill level rule: member of the enumeration. -/
def validSkillLevel (s : String) : Bool :=
  SKILL_LEVELS.contains s

/-- Modelled from the spec: createEventSchema (src/types/event.types.ts is not
among the provided files).  Rules follow §4.1 and the mongoose eventSchema
bounds: title 1–100 chars, description non-empty, capacity ≥ 1, skillLevel in
the enumeration when present. -/
def validateCreate (d : EventCreate) : Bool :=
  validTitle d.title && validDescription d.description &&
    validCapacity d.capacity && d.skillLevel.all validSkillLevel

/-- Modelled from the spec: updateEventSchema — every field optional, but any
field that is present is validated by the same rules (§4.1). -/
def validateUpdate (u : EventUpdate) : Bool :=
  u.title.all validTitle && u.description.all validDescription &&
    u.capacity.all validCapacity && u.skillLevel.all validSkillLevel

/-- Keep the new optional value when provided, the old one otherwise. -/
def pick {α : Type} : Option α → Option α → Option α
  | some v, _ => some v
  | none, old => old

/-- Apply the provided fields of a partial update to an event (mongoose
findByIdAndUpdate field-replace semantics with `new: true`). -/
def applyUpdate (u : EventUpdate) (e : Event) : Event :=
  { e with
    title := u.title.getD e.title,
    description := u.description.getD e.description,
    date := u.date.getD e.date,
    capacity := u.capacity.getD e.capacity,
    skillLevel := pick u.skillLevel e.skillLevel,
    location := pick u.location e.location,
    latitude := pick u.latitude e.latitude,
    longitude := pick u.longitude e.longitude,
    attendees := u.attendees.getD e.attendees,
    photo := pick u.photo e.photo }

/-- `EventModel.create` (event.model.ts lines 102–115): parse the create
schema, then insert.  A schema failure throws "Invalid update data" before any
store write; a store failure throws "Failed to create event".  `newId` stands
for the identifier generated by the store on insert. -/
def EventModel.create (storeFail : Bool) (store : List Event) (newId : Nat)
    (d : EventCreate) : Except DomainError Event × List Event :=
  if validateCreate d then
    if storeFail then
      (Except.error (DomainError.persistenceError "Failed to create event"), store)
    else
      let ev : Event :=
        { id := newId, title := d.title, description := d.description,
          date := d.date, capacity := d.capacity, skillLevel := d.skillLevel,
          location := d.location, latitude := d.latitude,
          longitude := d.longitude, createdBy := d.createdBy,
          attendees := d.attendees, photo := d.photo }
      (Except.ok ev, store ++ [ev])
  else
    (Except.error (DomainError.validationError "Invalid update data"), store)

/-- `EventModel.update` (event.model.ts lines 117–140): parse the update
schema, then findByIdAndUpdate with `new: true`, which returns the updated
record, or null when no record matches.  A schema failure throws
"Invalid update data"; a store failure throws "Failed to update event". -/
def EventModel.update (storeFail : Bool) (store : List Event) (eventId : Nat)
    (u : EventUpdate) : Except DomainError (Option Event) × List Event :=
  if validateUpdate u then
    if storeFail then
      (Except.error (DomainError.persistenceError "Failed to update event"), store)
    else
      match store.find? (fun e => e.id == eventId) with
      | none => (Except.ok none, store)
      | some e =>
        let e2 := applyUpdate u e
        (Except.ok (some e2), store.map (fun x => if x.id == eventId then e2 else x))
  else
    (Except.error (DomainError.validationError "Invalid update data"), store)

/-- `EventModel.delete` (event.model.ts lines 142–149): findByIdAndDelete with
no existence check, so a missing record is not an error; a store failure
throws "Failed to delete event". -/
def EventModel.delete (storeFail : Bool) (store : List Event) (eventId : Nat) :
    Except DomainError Unit × List Event :=
  if storeFail then
    (Except.error (DomainError.persistenceError "Failed to delete event"), store)
  else
    (Except.ok (), store.filter (fun e => e.id != eventId))

/-- `EventModel.findById` (event.model.ts lines 151–164): findOne on the id,
returning null when absent; a store failure throws "Failed to find event". -/
def EventModel.findById (storeFail : Bool) (store : List Event) (eventId : Nat) :
    Except DomainError (Option Event) :=
  if storeFail then
    Except.error (DomainError.persistenceError "Failed to find event")
  else
    Except.ok (store.find? (fun e => e.id == eventId))

/-- The descending-date order used by findAll (`sort({ date: -1 })`). -/
def dateGe (a b : Event) : Prop := b.date ≤ a.date

instance : DecidableRel dateGe :=
  fun a b => inferInstanceAs (Decidable (b.date ≤ a.date))

instance : IsTotal Event dateGe :=
  ⟨fun a b => le_total b.date a.date⟩

instance : IsTrans Event dateGe :=
  ⟨fun _ _ _ h1 h2 => le_trans h2 h1⟩

/-- `EventModel.findAll` (event.model.ts lines 166–173): find all events
sorted by descending date; a store failure throws "Failed to fetch events". -/
def EventModel.findAll (storeFail : Bool) (store : List Event) :
    Except DomainError (List Event) :=
  if storeFail then
    Except.error (DomainError.persistenceError "Failed to fetch events")
  else
    Except.ok (store.insertionSort dateGe)

/-- Modelled from the spec: the joinEvent controller (event.controller.ts is
not among the provided files); behaviour follows §4.3 and the mocked and
unmocked route tests.  `store` is the collection as seen by the initial
findById and `store2` the collection as seen by the subsequent update,
letting the record vanish between the two calls (the race of §4.3 step 4). -/
def joinEvent (storeFail : Bool) (store store2 : List Event)
    (eventId userId : Nat) : Except DomainError Event × List Event :=
  match EventModel.findById storeFail store eventId with
  | Except.error e => (Except.error e, store2)
  | Except.ok none => (Except.error (DomainError.notFound "Event not found"), store2)
  | Except.ok (some ev) =>
    if userId ∈ ev.attendees then
      (Except.error (DomainError.conflict "User already joined the event"), store2)
    else if ev.capacity ≤ (ev.attendees.length : Int) then
      (Except.error (DomainError.conflict "Event is at full capacity"), store2)
    else
      match EventModel.update storeFail store2 eventId
          { attendees := some (ev.attendees ++ [userId]) } with
      | (Except.error e, s) => (Except.error e, s)
      | (Except.ok none, s) =>
        (Except.error (DomainError.persistenceError "Failed to update event"), s)
      | (Except.ok (some e2), s) => (Except.ok e2, s)

/-- Modelled from the spec: the leaveEvent controller (event.controller.ts is
not among the provided files); behaviour follows §4.3 and the route tests,
whose mocks exercise a filter-based removal of the leaving user. -/
def leaveEvent (storeFail : Bool) (store store2 : List Event)
    (eventId userId : Nat) : Except DomainError Event × List Event :=
  match EventModel.findById storeFail store eventId with
  | Except.error e => (Except.error e, store2)
  | Except.ok none => (Except.error (DomainError.notFound "Event not found"), store2)
  | Except.ok (some ev) =>
    if userId ∈ ev.attendees then
      match EventModel.update storeFail store2 eventId
          { attendees := some (ev.attendees.filter (fun a => a != userId)) } with
      | (Except.error e, s) => (Except.error e, s)
      | (Except.ok none, s) =>
        (Except.error (DomainError.persistenceError "Failed to update event"), s)
      | (Except.ok (some e2), s) => (Except.ok e2, s)
    else
      (Except.error (DomainError.conflict "User is not an attendee of the event"), store2)

/-- A user document (shape used by the user route tests). -/
structure User where
  id : Nat
  email : String
  name : String
  googleId : Option String := none
  age : Option Int := none
  bio : Option String := none
  location : Option String := none
  latitude : Option Int := none
  longitude : Option Int := none
  profilePicture : Option String := none
  skillLevel : Option String := none
  deriving Repr, DecidableEq

/-- A partial profile-update payload: every field optional. -/
structure UserUpdate where
  name : Option String := none
  age : Option Int := none
  bio : Option String := none
  location : Option String := none
  latitude : Option Int := none
  longitude : Option Int := none
  profilePicture : Option String := none
  skillLevel : Option String := none
  deriving Repr, DecidableEq

/-- Modelled from the spec: the profile-update schema (user.types.ts is not
among the provided files): a present name is non-empty, a present age is
non-negative, a present bio is at most 500 characters, a present skillLevel
is in the enumeration (§4.1 and the invalid-payload user test). -/
def validateUserUpdate (u : UserUpdate) : Bool :=
  u.name.all (fun n => decide (1 ≤ n.length)) &&
    u.age.all (fun a => decide (0 ≤ a)) &&
    u.bio.all (fun b => decide (b.length ≤ 500)) &&
    u.skillLevel.all validSkillLevel

/-- Apply the provided fields of a partial profile update to a user. -/
def applyUserUpdate (u : UserUpdate) (x : User) : User :=
  { x with
    name := u.name.getD x.name,
    age := pick u.age x.age,
    bio := pick u.bio x.bio,
    location := pick u.location x.location,
    latitude := pick u.latitude x.latitude,
    longitude := pick u.longitude x.longitude,
    profilePicture := pick u.profilePicture x.profilePicture,
    skillLevel := pick u.skillLevel x.skillLevel }

/-- Modelled from the spec: user.model.ts update (not among the provided
files) — same structure as EventModel.update with the entity-specific store
failure message "Failed to update user" (§4.2; the mocked user tests pin both
the null return and the failure message). -/
def UserModel.update (storeFail : Bool) (store : List User) (userId : Nat)
    (u : UserUpdate) : Except DomainError (Option User) × List User :=
  if validateUserUpdate u then
    if storeFail then
      (Except.error (DomainError.persistenceError "Failed to update user"), store)
    else
      match store.find? (fun x => x.id == userId) with
      | none => (Except.ok none, store)
      | some x =>
        let x2 := applyUserUpdate u x
        (Except.ok (some x2), store.map (fun y => if y.id == userId then x2 else y))
  else
    (Except.error (DomainError.validationError "Invalid update data"), store)

/-- A hexadecimal character. -/
def isHexDigitChar (c : Char) : Bool :=
  c.isDigit || (decide ('a'.toNat ≤ c.toNat) && decide (c.toNat ≤ 'f'.toNat)) ||
    (decide ('A'.toNat ≤ c.toNat) && decide (c.toNat ≤ 'F'.toNat))

/-- A well-formed object identifier: a 24-character hexadecimal string
(mongoose ObjectId validity on strings). -/
def isValidObjectId (s : String) : Bool :=
  s.length == 24 && s.toList.all isHexDigitChar

/-- An HTTP response: status code and message of the uniform envelope. -/
structure HttpResponse where
  status : Nat
  message : String
  deriving Repr, DecidableEq

/-- Modelled from the spec: the GET /events/:id handler (event.controller.ts
is not among the provided files); behaviour follows §6, §8 and the mocked
tests: a malformed id yields 400 "Invalid event id" without touching the
gateway.  `decode` maps a well-formed raw id to the store identifier; the
second component lists the event ids passed to the gateway. -/
def getEventHandler (decode : String → Nat) (storeFail : Bool)
    (store : List Event) (rawId : String) : HttpResponse × List Nat :=
  if isValidObjectId rawId then
    let eid := decode rawId
    match EventModel.findById storeFail store eid with
    | Except.error e => ({ status := e.status, message := e.msg }, [eid])
    | Except.ok none => ({ status := 404, message := "Event not found" }, [eid])
    | Except.ok (some _) =>
      ({ status := 200, message := "Event fetched successfully" }, [eid])
  else
    ({ status := 400, message := "Invalid event id" }, [])

/-- Modelled from the spec: the DELETE /events/:id handler
(event.controller.ts is not among the provided files); behaviour follows §6
and the mocked tests: malformed id → 400 "Invalid event id" with no gateway
call; absent event → 404; otherwise delete. -/
def deleteEventHandler (decode : String → Nat) (storeFail : Bool)
    (store : List Event) (rawId : String) : HttpResponse × List Nat :=
  if isValidObjectId rawId then
    let eid := decode rawId
    match EventModel.findById storeFail store eid with
    | Except.error e => ({ status := e.status, message := e.msg }, [eid])
    | Except.ok none => ({ status := 404, message := "Event not found" }, [eid])
    | Except.ok (some _) =>
      match EventModel.delete storeFail store eid with
      | (Except.error e2, _) => ({ status := e2.status, message := e2.msg }, [eid, eid])
      | (Except.ok _, _) =>
        ({ status := 200, message := "Event deleted successfully" }, [eid, eid])
  else
    ({ status := 400, message := "Invalid event id" }, [])

/-- The possible behaviours of a handler function passed to asyncHandler:
throw synchronously, return a non-promise, or return a promise that resolves
or rejects. -/
inductive FnBehavior (ε : Type) where
  | syncThrow (e : ε)
  | syncReturn
  | promiseResolved
  | promiseRejected (e : ε)
  deriving Repr, DecidableEq

/-- What the wrapper produced by asyncHandler does: let an exception escape
synchronously, or return normally having forwarded the listed errors to the
next function. -/
inductive WrapperOutcome (ε : Type) where
  | threw (e : ε)
  | returned (nextCalls : List ε)
  deriving Repr, DecidableEq

/-- `asyncHandler` (asyncHandler.util.ts lines 5–19): call fn with no
surrounding try/catch, so a synchronous throw escapes; when the result is a
Promise attach a single .catch that forwards the rejection reason to next;
otherwise return with next never called. -/
def asyncHandler {ε : Type} : FnBehavior ε → WrapperOutcome ε
  | FnBehavior.syncThrow e => WrapperOutcome.threw e
  | FnBehavior.syncReturn => WrapperOutcome.returned []
  | FnBehavior.promiseResolved => WrapperOutcome.returned []
  | FnBehavior.promiseRejected e => WrapperOutcome.returned [e]

/-- Replacing exactly the records whose id matches makes the replacement the
record found by a subsequent lookup on that id. -/
theorem find?_map_replace (store : List Event) (eventId : Nat) (e2 : Event)
    (hex : (store.find? (fun e => e.id == eventId)).isSome = true)
    (hid : (e2.id == eventId) = true) :
    (store.map (fun x => if x.id == eventId then e2 else x)).find?
      (fun e => e.id == eventId) = some e2 := by
  induction store with
  | nil => simp at hex
  | cons x xs ih =>
    by_cases hx : (x.id == eventId) = true
    · simp only [List.map_cons, if_pos hx]
      simp [List.find?_cons, hid]
    · have hx' : (x.id == eventId) = false := by simpa using hx
      simp only [List.map_cons, if_neg hx]
      simp only [List.find?_cons, hx']
      apply ih
      simpa only [List.find?_cons, hx'] using hex

/-- C1: joinEvent on a missing event fails NotFound 404 "Event not found"; on
an event already containing the user it fails Conflict 400 "User already
joined the event"; on a full event it fails Conflict 400 "Event is at full
capacity"; otherwise the user id is appended to attendees and persisted, and a
join at attendees length capacity-1 brings attendees length to exactly
capacity. -/
theorem join_spec (store : List Event) (eventId userId : Nat) :
    (store.find? (fun e => e.id == eventId) = none →
      joinEvent false store store eventId userId =
        (Except.error (DomainError.notFound "Event not found"), store) ∧
      (DomainError.notFound "Event not found").status = 404) ∧
    (∀ ev, store.find? (fun e => e.id == eventId) = some ev →
      userId ∈ ev.attendees →
      joinEvent false store store eventId userId =
        (Except.error (DomainError.conflict "User already joined the event"), store) ∧
      (DomainError.conflict "User already joined the event").status = 400) ∧
    (∀ ev, store.find? (fun e => e.id == eventId) = some ev →
      userId ∉ ev.attendees → ev.capacity ≤ (ev.attendees.length : Int) →
      joinEvent false store store eventId userId =
        (Except.error (DomainError.conflict "Event is at full capacity"), store) ∧
      (DomainError.conflict "Event is at full capacity").status = 400) ∧
    (∀ ev, store.find? (fun e => e.id == eventId) = some ev →
      userId ∉ ev.attendees → (ev.attendees.length : Int) < ev.capacity →
      ∃ e2 store2,
        joinEvent false store store eventId userId = (Except.ok e2, store2) ∧
        e2.attendees = ev.attendees ++ [userId] ∧
        store2.find? (fun e => e.id == eventId) = some e2 ∧
        ((ev.attendees.length : Int) = ev.capacity - 1 →
          (e2.attendees.length : Int) = ev.capacity)) := by
  refine ⟨?_, ?_, ?_, ?_⟩
  · intro h
    exact ⟨by simp [joinEvent, EventModel.findById, h], rfl⟩
  · intro ev h hmem
    exact ⟨by simp [joinEvent, EventModel.findById, h, hmem], rfl⟩
  · intro ev h hmem hcap
    exact ⟨by simp [joinEvent, EventModel.findById, h, hmem, hcap], rfl⟩
  · intro ev h hmem hcap
    have hid : (ev.id == eventId) = true := by
      have := List.find?_some h
      simpa using this
    refine ⟨applyUpdate { attendees := some (ev.attendees ++ [userId]) } ev,
      store.map (fun x => if x.id == eventId then
        applyUpdate { attendees := some (ev.attendees ++ [userId]) } ev else x),
      ?_, ?_, ?_, ?_⟩
    · simp [joinEvent, EventModel.findById, EventModel.update, h, hmem,
        not_le.mpr hcap, validateUpdate]
    · simp [applyUpdate]
    · exact find?_map_replace store eventId _ (by simp [h]) (by simpa [applyUpdate] using hid)
    · intro hlen
      simp only [applyUpdate, Option.getD_some, List.length_append, List.length_cons,
        List.length_nil]
      push_cast
      omega

/-- C1 witness: joining a capacity-2 event with one attendee succeeds and
fills it to capacity. -/
theorem join_spec_witness :
    ∃ e2 store2,
      joinEvent false
        [{ id := 1, title := "T", description := "D", date := 0, capacity := 2,
           createdBy := 7, attendees := [5] }]
        [{ id := 1, title := "T", description := "D", date := 0, capacity := 2,
           createdBy := 7, attendees := [5] }] 1 6 = (Except.ok e2, store2) ∧
      e2.attendees = [5] ++ [6] ∧
      store2.find? (fun e => e.id == 1) = some e2 ∧
      ((([5] : List Nat).length : Int) = 2 - 1 →
        (e2.attendees.length : Int) = 2) := by
  have h := (join_spec
    [{ id := 1, title := "T", description := "D", date := 0, capacity := 2,
       createdBy := 7, attendees := [5] }] 1 6).2.2.2
    { id := 1, title := "T", description := "D", date := 0, capacity := 2,
      createdBy := 7, attendees := [5] } (by decide) (by decide) (by decide)
  simpa using h

/-- C10: a wrapped handler whose promise rejects has its error forwarded to
next exactly once, while a synchronous throw is not caught by asyncHandler and
escapes the wrapper. -/
theorem asyncHandler_spec {ε : Type} (e : ε) :
    asyncHandler (FnBehavior.promiseRejected e) = WrapperOutcome.returned [e] ∧
    asyncHandler (FnBehavior.syncThrow e) = WrapperOutcome.threw e :=
  ⟨rfl, rfl⟩

/-- C2: leaveEvent on a missing event fails NotFound 404; when the user is not
an attendee it fails Conflict 400 "User is not an attendee of the event";
otherwise exactly the entries equal to the user id are removed from attendees
(the user is gone, every other entry is kept) and the relative order of the
remaining attendees is preserved (the result is a sublist of the original),
and the result is persisted. -/
theorem leave_spec (store : List Event) (eventId userId : Nat) :
    (store.find? (fun e => e.id == eventId) = none →
      leaveEvent false store store eventId userId =
        (Except.error (DomainError.notFound "Event not found"), store) ∧
      (DomainError.notFound "Event not found").status = 404) ∧
    (∀ ev, store.find? (fun e => e.id == eventId) = some ev →
      userId ∉ ev.attendees →
      leaveEvent false store store eventId userId =
        (Except.error (DomainError.conflict "User is not an attendee of the event"), store) ∧
      (DomainError.conflict "User is not an attendee of the event").status = 400) ∧
    (∀ ev, store.find? (fun e => e.id == eventId) = some ev →
      userId ∈ ev.attendees →
      ∃ e2 store2,
        leaveEvent false store store eventId userId = (Except.ok e2, store2) ∧
        e2.attendees = ev.attendees.filter (fun a => a != userId) ∧
        userId ∉ e2.attendees ∧
        e2.attendees.Sublist ev.attendees ∧
        (∀ a ∈ ev.attendees, a ≠ userId → a ∈ e2.attendees) ∧
        store2.find? (fun e => e.id == eventId) = some e2) := by
  refine ⟨?_, ?_, ?_⟩
  · intro h
    exact ⟨by simp [leaveEvent, EventModel.findById, h], rfl⟩
  · intro ev h hmem
    exact ⟨by simp [leaveEvent, EventModel.findById, h, hmem], rfl⟩
  · intro ev h hmem
    have hid : (ev.id == eventId) = true := by
      have := List.find?_some h
      simpa using this
    refine ⟨applyUpdate { attendees := some (ev.attendees.filter (fun a => a != userId)) } ev,
      store.map (fun x => if x.id == eventId then
        applyUpdate { attendees := some (ev.attendees.filter (fun a => a != userId)) } ev else x),
      ?_, ?_, ?_, ?_, ?_, ?_⟩
    · simp [leaveEvent, EventModel.findById, EventModel.update, h, hmem, validateUpdate]
    · simp [applyUpdate]
    · simp [applyUpdate]
    · simp only [applyUpdate, Option.getD_some]
      exact List.filter_sublist ev.attendees
    · intro a ha hne
      simp only [applyUpdate, Option.getD_some, List.mem_filter]
      exact ⟨ha, by simpa using hne⟩
    · exact find?_map_replace store eventId _ (by simp [h]) (by simpa [applyUpdate] using hid)

/-- C2 witness: leaving an event whose attendee list is [5, 6, 5, 7] as
user 5 removes exactly the entries equal to 5 and keeps [6, 7] in order. -/
theorem leave_spec_witness :
    ∃ e2 store2,
      leaveEvent false
        [{ id := 1, title := "T", description := "D", date := 0, capacity := 9,
           createdBy := 7, attendees := [5, 6, 5, 7] }]
        [{ id := 1, title := "T", description := "D", date := 0, capacity := 9,
           createdBy := 7, attendees := [5, 6, 5, 7] }] 1 5 = (Except.ok e2, store2) ∧
      e2.attendees = ([5, 6, 5, 7] : List Nat).filter (fun a => a != 5) ∧
      (5 : Nat) ∉ e2.attendees ∧
      e2.attendees.Sublist [5, 6, 5, 7] ∧
      (∀ a ∈ ([5, 6, 5, 7] : List Nat), a ≠ 5 → a ∈ e2.attendees) ∧
      store2.find? (fun e => e.id == 1) = some e2 := by
  have h := (leave_spec
    [{ id := 1, title := "T", description := "D", date := 0, capacity := 9,
       createdBy := 7, attendees := [5, 6, 5, 7] }] 1 5).2.2
    { id := 1, title := "T", description := "D", date := 0, capacity := 9,
      createdBy := 7, attendees := [5, 6, 5, 7] } (by decide) (by decide)
  simpa using h

/-- C3: any payload violating a schema rule — empty title, capacity ≤ 0,
title longer than 100 characters, or empty description — makes
EventModel.create / EventModel.update raise the validation error before any
store write, leaving the store unchanged. -/
theorem validation_fails_closed (fail : Bool) (store : List Event)
    (newId eventId : Nat) (d : EventCreate) (u : EventUpdate) :
    ((d.title = "" ∨ d.capacity ≤ 0 ∨ 100 < d.title.length ∨ d.description = "") →
      EventModel.create fail store newId d =
        (Except.error (DomainError.validationError "Invalid update data"), store)) ∧
    ((u.title = some "" ∨ (∃ c, u.capacity = some c ∧ c ≤ 0) ∨
        (∃ t, u.title = some t ∧ 100 < t.length) ∨ u.description = some "") →
      EventModel.update fail store eventId u =
        (Except.error (DomainError.validationError "Invalid update data"), store)) := by
  constructor
  · intro h
    have hv : ¬ (validateCreate d = true) := by
      intro hv
      simp only [validateCreate, Bool.and_eq_true, validTitle, validDescription,
        validCapacity, decide_eq_true_eq] at hv
      obtain ⟨⟨⟨⟨h1a, h1b⟩, h2⟩, h3⟩, _⟩ := hv
      rcases h with hc | hc | hc | hc
      · rw [hc] at h1a; simp at h1a
      · omega
      · omega
      · rw [hc] at h2; simp at h2
    simp [EventModel.create, hv]
  · intro h
    have hv : ¬ (validateUpdate u = true) := by
      intro hv
      simp only [validateUpdate, Bool.and_eq_true] at hv
      obtain ⟨⟨⟨h1, h2⟩, h3⟩, _⟩ := hv
      rcases h with hc | ⟨c, hc, hcle⟩ | ⟨t, hc, hlen⟩ | hc
      · rw [hc] at h1
        simp [validTitle] at h1
      · rw [hc] at h3
        simp [validCapacity] at h3
        omega
      · rw [hc] at h1
        simp [validTitle] at h1
        omega
      · rw [hc] at h2
        simp [validDescription] at h2
    simp [EventModel.update, hv]

/-- C3 witness: creating with an empty title and updating capacity to 0 are
both rejected with the store left unchanged. -/
theorem validation_fails_closed_witness :
    EventModel.create false [] 1
      { title := "", description := "D", date := 0, capacity := 1, createdBy := 7 } =
      (Except.error (DomainError.validationError "Invalid update data"), []) ∧
    EventModel.update false [] 1 { capacity := some 0 } =
      (Except.error (DomainError.validationError "Invalid update data"), []) :=
  ⟨(validation_fails_closed false [] 1 1
      { title := "", description := "D", date := 0, capacity := 1, createdBy := 7 }
      { capacity := some 0 }).1 (Or.inl rfl),
   (validation_fails_closed false [] 1 1
      { title := "", description := "D", date := 0, capacity := 1, createdBy := 7 }
      { capacity := some 0 }).2 (Or.inr (Or.inl ⟨0, rfl, le_refl 0⟩))⟩

/-- C4: when the event loads, the precondition checks pass, and the update
then finds no record (it vanished between load and update), join and leave
both fail with PersistenceError "Failed to update event", surfaced as 500. -/
theorem join_leave_race_spec (store store2 : List Event) (eventId userId : Nat) :
    (∀ ev, store.find? (fun e => e.id == eventId) = some ev →
      userId ∉ ev.attendees → (ev.attendees.length : Int) < ev.capacity →
      store2.find? (fun e => e.id == eventId) = none →
      joinEvent false store store2 eventId userId =
        (Except.error (DomainError.persistenceError "Failed to update event"), store2) ∧
      (DomainError.persistenceError "Failed to update event").status = 500) ∧
    (∀ ev, store.find? (fun e => e.id == eventId) = some ev →
      userId ∈ ev.attendees →
      store2.find? (fun e => e.id == eventId) = none →
      leaveEvent false store store2 eventId userId =
        (Except.error (DomainError.persistenceError "Failed to update event"), store2) ∧
      (DomainError.persistenceError "Failed to update event").status = 500) := by
  constructor
  · intro ev h hmem hcap hnone
    refine ⟨?_, rfl⟩
    simp [joinEvent, EventModel.findById, EventModel.update, h, hmem,
      not_le.mpr hcap, validateUpdate, hnone]
  · intro ev h hmem hnone
    refine ⟨?_, rfl⟩
    simp [leaveEvent, EventModel.findById, EventModel.update, h, hmem,
      validateUpdate, hnone]

/-- C4 witness: with the event present at load time and the second store
empty, join and leave both surface "Failed to update event". -/
theorem join_leave_race_spec_witness :
    joinEvent false
      [{ id := 1, title := "T", description := "D", date := 0, capacity := 2,
         createdBy := 7, attendees := [] }] [] 1 6 =
      (Except.error (DomainError.persistenceError "Failed to update event"), []) ∧
    (DomainError.persistenceError "Failed to update event").status = 500 :=
  (join_leave_race_spec
    [{ id := 1, title := "T", description := "D", date := 0, capacity := 2,
       createdBy := 7, attendees := [] }] [] 1 6).1
    { id := 1, title := "T", description := "D", date := 0, capacity := 2,
      createdBy := 7, attendees := [] } (by decide) (by decide) (by decide) (by decide)

/-- C5: for a valid partial payload, gateway update on a non-matching id
returns null without raising; it raises PersistenceError ("Failed to update
event" / "Failed to update user") exactly when the underlying store operation
fails, for both the event and the user gateways. -/
theorem update_null_never_raises (store : List Event) (ustore : List User)
    (eventId userId : Nat) (u : EventUpdate) (v : UserUpdate) :
    (validateUpdate u = true → store.find? (fun e => e.id == eventId) = none →
      EventModel.update false store eventId u = (Except.ok none, store)) ∧
    (validateUpdate u = true →
      EventModel.update true store eventId u =
        (Except.error (DomainError.persistenceError "Failed to update event"), store)) ∧
    (∀ fail msg s, EventModel.update fail store eventId u =
        (Except.error (DomainError.persistenceError msg), s) → fail = true) ∧
    (validateUserUpdate v = true → ustore.find? (fun x => x.id == userId) = none →
      UserModel.update false ustore userId v = (Except.ok none, ustore)) ∧
    (validateUserUpdate v = true →
      UserModel.update true ustore userId v =
        (Except.error (DomainError.persistenceError "Failed to update user"), ustore)) ∧
    (∀ fail msg s, UserModel.update fail ustore userId v =
        (Except.error (DomainError.persistenceError msg), s) → fail = true) := by
  refine ⟨?_, ?_, ?_, ?_, ?_, ?_⟩
  · intro hv hnone
    simp [EventModel.update, hv, hnone]
  · intro hv
    simp [EventModel.update, hv]
  · intro fail msg s h
    cases fail with
    | true => rfl
    | false =>
      by_cases hv : validateUpdate u = true
      · rcases hfind : store.find? (fun e => e.id == eventId) with _ | e
        · simp [EventModel.update, hv, hfind] at h
        · simp [EventModel.update, hv, hfind] at h
      · simp [EventModel.update, hv] at h
  · intro hv hnone
    simp [UserModel.update, hv, hnone]
  · intro hv
    simp [UserModel.update, hv]
  · intro fail msg s h
    cases fail with
    | true => rfl
    | false =>
      by_cases hv : validateUserUpdate v = true
      · rcases hfind : ustore.find? (fun x => x.id == userId) with _ | x
        · simp [UserModel.update, hv, hfind] at h
        · simp [UserModel.update, hv, hfind] at h
      · simp [UserModel.update, hv] at h

/-- C5 witness: a valid partial update on an empty collection returns null
for both gateways, without raising. -/
theorem update_null_never_raises_witness :
    EventModel.update false [] 1 { title := some "New" } = (Except.ok none, []) ∧
    UserModel.update false [] 1 { name := some "New" } = (Except.ok none, []) :=
  ⟨(update_null_never_raises [] [] 1 1
      { title := some "New" } { name := some "New" }).1 (by decide) rfl,
   (update_null_never_raises [] [] 1 1
      { title := some "New" } { name := some "New" }).2.2.2.1 (by decide) rfl⟩

/-- C6: gateway delete removes the records matching the id, raises nothing
when the record is absent — so a second delete on the same id also succeeds
and findById afterwards returns null — and raises PersistenceError exactly on
storage failure. -/
theorem delete_idempotent_spec (store : List Event) (eventId : Nat) :
    (∃ s1, EventModel.delete false store eventId = (Except.ok (), s1) ∧
      EventModel.delete false s1 eventId = (Except.ok (), s1) ∧
      EventModel.findById false s1 eventId = Except.ok none ∧
      (∀ e ∈ s1, e ∈ store ∧ e.id ≠ eventId) ∧
      (∀ e ∈ store, e.id ≠ eventId → e ∈ s1)) ∧
    (EventModel.delete true store eventId =
      (Except.error (DomainError.persistenceError "Failed to delete event"), store)) ∧
    (∀ fail err s, EventModel.delete fail store eventId = (Except.error err, s) →
      fail = true) := by
  refine ⟨⟨store.filter (fun e => e.id != eventId), ?_, ?_, ?_, ?_, ?_⟩, rfl, ?_⟩
  · rfl
  · simp [EventModel.delete, List.filter_filter]
  · have hnone : (store.filter (fun e => e.id != eventId)).find?
        (fun e => e.id == eventId) = none := by
      rw [List.find?_eq_none]
      intro x hx
      rcases List.mem_filter.mp hx with ⟨_, hne⟩
      simpa using hne
    simp [EventModel.findById, hnone]
  · intro e he
    rcases List.mem_filter.mp he with ⟨hmem, hne⟩
    exact ⟨hmem, by simpa using hne⟩
  · intro e he hne
    exact List.mem_filter.mpr ⟨he, by simpa using hne⟩
  · intro fail err s h
    cases fail with
    | true => rfl
    | false => simp [EventModel.delete] at h

/-- A concrete event with id 1 used by the C6 witness store. -/
def sampleEventOne : Event :=
  { id := 1, title := "T", description := "D", date := 0, capacity := 2,
    createdBy := 7, attendees := [] }

/-- A concrete event with id 2 used by the C6 witness store. -/
def sampleEventTwo : Event :=
  { id := 2, title := "U", description := "E", date := 1, capacity := 3,
    createdBy := 7, attendees := [] }

/-- C6 witness: deleting id 1 from a two-event store removes exactly the
matching record, a second delete succeeds, and findById then returns null. -/
theorem delete_idempotent_spec_witness :
    ∃ s1, EventModel.delete false [sampleEventOne, sampleEventTwo] 1 =
        (Except.ok (), s1) ∧
      EventModel.delete false s1 1 = (Except.ok (), s1) ∧
      EventModel.findById false s1 1 = Except.ok none ∧
      (∀ e ∈ s1, e ∈ [sampleEventOne, sampleEventTwo] ∧ e.id ≠ 1) ∧
      (∀ e ∈ [sampleEventOne, sampleEventTwo], e.id ≠ 1 → e ∈ s1) :=
  (delete_idempotent_spec [sampleEventOne, sampleEventTwo] 1).1

/-- C7: findAll returns the whole events collection ordered by descending
date (a permutation of the store, sorted for the descending-date relation),
and raises PersistenceError "Failed to fetch events" exactly when the
underlying store query fails. -/
theorem findAll_sorted_desc (store : List Event) (fail : Bool) :
    (∀ L, EventModel.findAll false store = Except.ok L →
      L.Perm store ∧ L.Sorted dateGe) ∧
    (EventModel.findAll true store =
      Except.error (DomainError.persistenceError "Failed to fetch events")) ∧
    (∀ err, EventModel.findAll fail store = Except.error err →
      fail = true ∧ err = DomainError.persistenceError "Failed to fetch events") := by
  refine ⟨?_, rfl, ?_⟩
  · intro L h
    simp only [EventModel.findAll, Bool.false_eq_true, if_false, Except.ok.injEq] at h
    subst h
    exact ⟨List.perm_insertionSort dateGe store, List.sorted_insertionSort dateGe store⟩
  · intro err h
    cases fail with
    | true =>
      refine ⟨rfl, ?_⟩
      simpa [EventModel.findAll] using h.symm
    | false => simp [EventModel.findAll] at h

/-- C7 witness: findAll on a three-event store returns the events in
descending date order, a permutation of the store. -/
theorem findAll_sorted_desc_witness :
    ∃ L, EventModel.findAll false
      [{ id := 1, title := "T", description := "D", date := 1, capacity := 2,
         createdBy := 7, attendees := [] },
       { id := 2, title := "U", description := "E", date := 3, capacity := 2,
         createdBy := 7, attendees := [] },
       { id := 3, title := "V", description := "F", date := 2, capacity := 2,
         createdBy := 7, attendees := [] }] = Except.ok L ∧
      L.Perm
        [{ id := 1, title := "T", description := "D", date := 1, capacity := 2,
           createdBy := 7, attendees := [] },
         { id := 2, title := "U", description := "E", date := 3, capacity := 2,
           createdBy := 7, attendees := [] },
         { id := 3, title := "V", description := "F", date := 2, capacity := 2,
           createdBy := 7, attendees := [] }] ∧
      L.Sorted dateGe := by
  refine ⟨List.insertionSort dateGe
    [{ id := 1, title := "T", description := "D", date := 1, capacity := 2,
       createdBy := 7, attendees := [] },
     { id := 2, title := "U", description := "E", date := 3, capacity := 2,
       createdBy := 7, attendees := [] },
     { id := 3, title := "V", description := "F", date := 2, capacity := 2,
       createdBy := 7, attendees := [] }], rfl, ?_⟩
  exact (findAll_sorted_desc
    [{ id := 1, title := "T", description := "D", date := 1, capacity := 2,
       createdBy := 7, attendees := [] },
     { id := 2, title := "U", description := "E", date := 3, capacity := 2,
       createdBy := 7, attendees := [] },
     { id := 3, title := "V", description := "F", date := 2, capacity := 2,
       createdBy := 7, attendees := [] }] false).1 _ rfl

/-- C8: a request to GET /events/:id or DELETE /events/:id whose id is not a
well-formed object identifier answers 400 "Invalid event id" and performs no
gateway call at all. -/
theorem invalid_id_never_reaches_gateway (decode : String → Nat) (fail : Bool)
    (store : List Event) (rawId : String) :
    isValidObjectId rawId = false →
    getEventHandler decode fail store rawId =
      ({ status := 400, message := "Invalid event id" }, []) ∧
    deleteEventHandler decode fail store rawId =
      ({ status := 400, message := "Invalid event id" }, []) := by
  intro h
  constructor
  · simp [getEventHandler, h]
  · simp [deleteEventHandler, h]

/-- C8 witness: the malformed id "invalid-id" from the mocked tests yields
400 "Invalid event id" on both handlers with no gateway call. -/
theorem invalid_id_never_reaches_gateway_witness :
    getEventHandler (fun _ => 0) false [] "invalid-id" =
      ({ status := 400, message := "Invalid event id" }, []) ∧
    deleteEventHandler (fun _ => 0) false [] "invalid-id" =
      ({ status := 400, message := "Invalid event id" }, []) :=
  invalid_id_never_reaches_gateway (fun _ => 0) false [] "invalid-id" (by decide)

/-- C9: a payload rejected by the create schema makes EventModel.create throw
the message "Invalid update data" — the same message the update path throws on
schema rejection — while "Failed to create event" occurs exactly on storage
failure with a valid payload. -/
theorem create_rejection_message (fail : Bool) (store : List Event)
    (newId eventId : Nat) (d : EventCreate) (u : EventUpdate) :
    (validateCreate d = false →
      (EventModel.create fail store newId d).1 =
        Except.error (DomainError.validationError "Invalid update data")) ∧
    (validateUpdate u = false →
      (EventModel.update fail store eventId u).1 =
        Except.error (DomainError.validationError "Invalid update data")) ∧
    (validateCreate d = true → fail = true →
      (EventModel.create fail store newId d).1 =
        Except.error (DomainError.persistenceError "Failed to create event")) ∧
    (∀ msg s, EventModel.create fail store newId d =
        (Except.error (DomainError.persistenceError msg), s) →
      msg = "Failed to create event" ∧ fail = true ∧ validateCreate d = true) := by
  refine ⟨?_, ?_, ?_, ?_⟩
  · intro hv
    simp [EventModel.create, hv]
  · intro hv
    simp [EventModel.update, hv]
  · intro hv hf
    simp [EventModel.create, hv, hf]
  · intro msg s h
    by_cases hv : validateCreate d = true
    · cases fail with
      | true =>
        refine ⟨?_, rfl, hv⟩
        simp [EventModel.create, hv] at h
        exact h.1.symm
      | false => simp [EventModel.create, hv] at h
    · simp [EventModel.create, hv] at h

/-- C9 witness: the empty-title payload of the mocked create test is rejected
with exactly the update-path message "Invalid update data". -/
theorem create_rejection_message_witness :
    (EventModel.create false [] 1
      { title := "", description := "D", date := 0, capacity := 10,
        createdBy := 7 }).1 =
      Except.error (DomainError.validationError "Invalid update data") :=
  (create_rejection_message false [] 1 1
    { title := "", description := "D", date := 0, capacity := 10, createdBy := 7 }
    { }).1 (by decide)
